import Mathlib

/-!
# Digital Mirror — shallow embedding

Shallow embedding of the control logic of `src/script.js` (class
`DigitalMirror`): the distortion-progression state machine, the speech
recognition retry/fallback lifecycle, and the `resetMirror` operation.

Modelling conventions:
* The mutable fields of the `DigitalMirror` instance that the control flow
  reads or writes become the fields of `MirrorState`.  Pure display sinks
  (canvas drawing, CSS classes, the humanity-percentage textContent, the
  glitch animation frames) are I/O with no feedback into control flow and
  are not part of the state; the listening-indicator text is kept (as
  `status`) because the spec talks about status transitions.
* `this.recognition` is either a live recognition object or
  undefined for the whole session; it is abstracted as the boolean
  field `hasRecognition` (set iff `setupSpeechRecognition` ran).
* `setTimeout(f, d)` becomes a `Scheduled` action returned next to the new
  state; the timer bodies are modelled as separate functions
  (`fireRetryRestart`, `restoreStatusAfterProcessing`, `showVerdict`,
  `fallbackToAlternativeMethods`) that fire as separate events.
* JS numbers are `Nat` for the counters and `Int` where `Math.max` with a
  subtraction is computed (`humanityPercentage`).
* The vestigial audio-analysis fields (`volumeThreshold`, `cooldownTime`,
  `lastTriggerTime`, `isProcessing`, `audioContext`, `analyser`, ...) are
  never read by the retained control flow and are omitted.
-/

namespace DigitalMirror

/-- `this.maxDistortionLevel = 5` (script.js line 19). -/
def maxDistortionLevel : Nat := 5

/-- `this.maxRetries = 5` (script.js line 37). -/
def maxRetries : Nat := 5

/-- `this.retryDelay = 2000` (script.js line 38). -/
def retryDelay : Nat := 2000

/-- The session state: the control-relevant mutable fields of the
`DigitalMirror` instance. -/
structure MirrorState where
  /-- `this.distortionLevel` -/
  distortionLevel : Nat
  /-- `this.humanityPercentage` -/
  humanityPercentage : Int
  /-- `this.isListening` -/
  isListening : Bool
  /-- `this.fallbackActive` -/
  fallbackActive : Bool
  /-- `this.retryCount` -/
  retryCount : Nat
  /-- whether `this.recognition` is set (capability present, `setupSpeechRecognition` ran) -/
  hasRecognition : Bool
  /-- whether `verdict-overlay` is displayed (`style.display = 'flex'` vs `'none'`) -/
  verdictVisible : Bool
  /-- whether `clean-instruction` is displayed -/
  cleanInstructionVisible : Bool
  /-- whether the fallback keyboard/click/test-button listeners have been installed
  (`enableFallbackControls` / `addTestButton` ran) -/
  controlsEnabled : Bool
  /-- the `listening-indicator` text (`showListeningIndicator`) -/
  status : String
  deriving Repr, DecidableEq

/-- A pending `setTimeout` callback, tagged with its delay in milliseconds. -/
inductive Scheduled where
  /-- `setTimeout(() => this.showVerdict(), 2000)` in `processHumanClaim` -/
  | verdict (delayMs : Nat)
  /-- `setTimeout(() => ... showListeningIndicator ..., 1500)` in `processHumanClaim` -/
  | statusRestore (delayMs : Nat)
  /-- restart timer in `handleSpeechError` (2000ms) or `onend` (500ms) -/
  | restartRecognition (delayMs : Nat)
  /-- `setTimeout(() => this.fallbackToAlternativeMethods(), 2000)` in `handleSpeechError` -/
  | fallback (delayMs : Nat)
  /-- `setTimeout(() => ... verdictText.style.animation ..., 500)` in `showVerdict` -/
  | verdictTextAnim (delayMs : Nat)
  deriving Repr, DecidableEq

/-- The error kinds dispatched on by the `switch (error)` in
`handleSpeechError` (script.js lines 209-233); `other` covers the
`default:` case, including the synthetic kinds `'restart-failed'` and
`'start-failed'`. -/
inductive SpeechError where
  | aborted
  | noSpeech
  | audioCapture
  | notAllowed
  | network
  | serviceNotAllowed
  | other (kind : String)
  deriving Repr, DecidableEq

/-- The `errorMessage` string chosen by the `switch` in `handleSpeechError`. -/
def speechErrorMessage : SpeechError → String
  | SpeechError.aborted => "Speech recognition aborted. Restarting..."
  | SpeechError.noSpeech => "No speech detected. Continuing to listen..."
  | SpeechError.audioCapture => "Microphone not accessible. Please check permissions."
  | SpeechError.notAllowed => "Microphone permission denied. Please allow access."
  | SpeechError.network => "Network error. Please check your connection."
  | SpeechError.serviceNotAllowed => "Speech recognition service not allowed."
  | SpeechError.other kind => "Speech recognition error: " ++ kind

/-- The `shouldRestart` flag set by the `switch` in `handleSpeechError`:
true for `'aborted'`, `'no-speech'` and the `default:` case, false for the
four permanent kinds. -/
def shouldRestart : SpeechError → Bool
  | SpeechError.aborted => true
  | SpeechError.noSpeech => true
  | SpeechError.audioCapture => false
  | SpeechError.notAllowed => false
  | SpeechError.network => false
  | SpeechError.serviceNotAllowed => false
  | SpeechError.other _ => true

/-- The four error kinds the spec calls permanent: exactly those for which
`handleSpeechError` sets `shouldRestart = false`. -/
def isPermanentError (e : SpeechError) : Bool :=
  match e with
  | SpeechError.audioCapture => true
  | SpeechError.notAllowed => true
  | SpeechError.network => true
  | SpeechError.serviceNotAllowed => true
  | _ => false

/-- `humanPhrases` (script.js lines 190-200). -/
def humanPhrases : List String :=
  [ "i am human"
  , "i am a human"
  , "i am the human"
  , "i am human being"
  , "i am a human being"
  , "i am the human being"
  , "i am human person"
  , "i am a human person"
  , "i am the human person" ]

/-- `needle` occurs as a contiguous infix of `haystack`. -/
def listContainsInfix (needle : List Char) : List Char → Bool
  | [] => needle.isEmpty
  | c :: rest => needle.isPrefixOf (c :: rest) || listContainsInfix needle rest

/-- JS `haystack.includes(needle)`: substring containment. -/
def containsSubstr (haystack needle : String) : Bool :=
  listContainsInfix needle.data haystack.data

/-- `detectHumanPhrase(transcript)` (script.js lines 188-203):
`humanPhrases.some(phrase => transcript.includes(phrase))`. -/
def detectHumanPhrase (transcript : String) : Bool :=
  humanPhrases.any (fun phrase => containsSubstr transcript phrase)

/-- The whitespace characters stripped by JS `String.prototype.trim`
(restricted to the ASCII ones; the transcripts at stake are ASCII). -/
def isTrimmableChar (c : Char) : Bool :=
  c = ' ' || c = '\t' || c = '\n' || c = '\r' || c = Char.ofNat 11 || c = Char.ofNat 12

/-- JS `trim()`: strip leading and trailing whitespace. -/
def trimChars (cs : List Char) : List Char :=
  ((cs.dropWhile isTrimmableChar).reverse.dropWhile isTrimmableChar).reverse

/-- The normalization applied in `recognition.onresult` (script.js line 136):
`transcript.toLowerCase().trim()` (ASCII case mapping). -/
def normalizeTranscript (raw : String) : String :=
  String.mk (trimChars (raw.data.map Char.toLower))

/-- `onresult` phrase check: normalize the raw transcript, then
`detectHumanPhrase` (script.js lines 134-145).  Returns whether
`processHumanClaim` is invoked for this utterance. -/
def onresultMatches (raw : String) : Bool :=
  detectHumanPhrase (normalizeTranscript raw)

/-- `fallbackToAlternativeMethods()` (script.js lines 284-296): set
`fallbackActive`, stop listening, reset the retry counter, show the
fallback status, and install the manual fallback controls
(`enableFallbackControls` + `addTestButton`). -/
def fallbackToAlternativeMethods (s : MirrorState) : MirrorState :=
  { s with fallbackActive := true
           isListening := false
           retryCount := 0
           status := "Fallback Mode"
           controlsEnabled := true }

/-- The `Restarting... (k/maxRetries)` indicator text of `handleSpeechError`. -/
def restartingStatus (k : Nat) : String :=
  "Restarting... (" ++ toString k ++ "/" ++ toString maxRetries ++ ")"

/-- `handleSpeechError(error)` (script.js lines 205-265).  Returns the new
state together with the `setTimeout` actions it schedules. -/
def handleSpeechError (e : SpeechError) (s : MirrorState) :
    MirrorState × List Scheduled :=
  if shouldRestart e && s.isListening then
    if s.retryCount + 1 ≤ maxRetries then
      ({ s with retryCount := s.retryCount + 1
                status := restartingStatus (s.retryCount + 1) },
       [Scheduled.restartRecognition retryDelay])
    else
      (fallbackToAlternativeMethods { s with retryCount := s.retryCount + 1 }, [])
  else
    ({ s with status := "Error: " ++ speechErrorMessage e },
     [Scheduled.fallback 2000])

/-- The body of the restart timer scheduled by `handleSpeechError`
(script.js lines 242-253): if still listening and the recognition object
exists, try `recognition.start()`; on success show `Listening...` (the
retry counter is left untouched), on failure recurse into
`handleSpeechError('restart-failed')`. -/
def fireRetryRestart (success : Bool) (s : MirrorState) :
    MirrorState × List Scheduled :=
  if s.isListening && s.hasRecognition then
    if success then ({ s with status := "Listening..." }, [])
    else handleSpeechError (SpeechError.other "restart-failed") s
  else (s, [])

/-- The body of the restart timer scheduled by `recognition.onend`
(script.js lines 164-173): like `fireRetryRestart` but with no status
update on success (the `onstart` callback handles that). -/
def fireEndRestart (success : Bool) (s : MirrorState) :
    MirrorState × List Scheduled :=
  if s.isListening && s.hasRecognition then
    if success then (s, [])
    else handleSpeechError (SpeechError.other "restart-failed") s
  else (s, [])

/-- `processHumanClaim()` (script.js lines 350-377): the claim event.
No-op at the distortion ceiling; otherwise increment `distortionLevel`,
recompute `humanityPercentage`, apply the visual update
(`updateDistortion`, which also hides the clean instruction at the
ceiling), show `Processing...`, and schedule either the verdict (2000ms,
at the ceiling) or the status restore (1500ms). -/
def processHumanClaim (s : MirrorState) : MirrorState × List Scheduled :=
  if s.distortionLevel ≥ maxDistortionLevel then
    (s, [])
  else
    let newLevel := s.distortionLevel + 1
    let s1 : MirrorState :=
      { s with distortionLevel := newLevel
               humanityPercentage := max 0 (100 - ((newLevel : Int) * 20))
               cleanInstructionVisible :=
                 if newLevel ≥ maxDistortionLevel then false
                 else s.cleanInstructionVisible
               status := "Processing..." }
    if newLevel ≥ maxDistortionLevel then
      (s1, [Scheduled.verdict 2000])
    else
      (s1, [Scheduled.statusRestore 1500])

/-- The body of the 1500ms status-restore timer in `processHumanClaim`
(script.js lines 369-375): `Listening...` if `this.recognition` exists,
else `Fallback Mode`. -/
def restoreStatusAfterProcessing (s : MirrorState) : MirrorState :=
  if s.hasRecognition then { s with status := "Listening..." }
  else { s with status := "Fallback Mode" }

/-- `showVerdict()` (script.js lines 422-436): show the verdict overlay,
stop listening (`stopListening` sets `isListening = false`), and schedule
the verdict-text animation after 500ms. -/
def showVerdict (s : MirrorState) : MirrorState × List Scheduled :=
  ({ s with verdictVisible := true, isListening := false },
   [Scheduled.verdictTextAnim 500])

/-- The manual fallback trigger (designated key press, mirror click, test
button): each installed listener just calls `processHumanClaim()`
(script.js lines 313-332).  Before `fallbackToAlternativeMethods` runs,
no listener is installed and the input does nothing. -/
def manualTrigger (s : MirrorState) : MirrorState × List Scheduled :=
  if s.controlsEnabled then processHumanClaim s else (s, [])

/-- `resetMirror()` (script.js lines 438-469): zero the distortion state,
hide the verdict overlay, restore the overlay/instructions, and restart
recognition if the recognition object exists (only that branch clears
`retryCount`); otherwise show the fallback status (if fallback is active)
or clear the indicator. -/
def resetMirrorBase (s : MirrorState) : MirrorState :=
  { s with distortionLevel := 0
           humanityPercentage := 100
           verdictVisible := false
           cleanInstructionVisible := true }

def resetMirror (s : MirrorState) : MirrorState :=
  if s.hasRecognition then
    { resetMirrorBase s with retryCount := 0
                             isListening := true
                             status := "Listening..." }
  else if s.fallbackActive then
    { resetMirrorBase s with status := "Fallback Mode" }
  else
    { resetMirrorBase s with status := "" }

/-- The constructor field initializations (script.js lines 18-38) plus the
`Initializing...` indicator shown at the top of `setupAudioDetection`. -/
def initState (hasRec : Bool) : MirrorState :=
  { distortionLevel := 0
    humanityPercentage := 100
    isListening := false
    fallbackActive := false
    retryCount := 0
    hasRecognition := hasRec
    verdictVisible := false
    cleanInstructionVisible := true
    controlsEnabled := false
    status := "Initializing..." }

/-- `setupAudioDetection` / `setupSpeechRecognition` (script.js lines
106-186): if the capability is absent, fall back immediately; otherwise
create the recognition object and attempt `recognition.start()` —
on success `isListening` becomes true, on a synchronous throw
`handleSpeechError('start-failed')` runs with `isListening` still false. -/
def initSession (hasRec startSuccess : Bool) : MirrorState × List Scheduled :=
  if hasRec then
    if startSuccess then ({ initState true with isListening := true }, [])
    else handleSpeechError (SpeechError.other "start-failed") (initState true)
  else
    (fallbackToAlternativeMethods (initState false), [])

/-- The external events and timer firings that drive the session. -/
inductive Event where
  /-- a claim signal: matched utterance or manual trigger routed to `processHumanClaim` -/
  | claim
  /-- `recognition.onerror` -/
  | speechError (e : SpeechError)
  /-- `recognition.onstart` (script.js lines 154-157) -/
  | recognitionStarted
  /-- `recognition.onend` (script.js lines 160-175): schedules a 500ms restart if listening -/
  | recognitionEnded
  /-- the 2000ms verdict timer fires -/
  | fireVerdict
  /-- the 1500ms status-restore timer fires -/
  | fireStatusRestore
  /-- a `handleSpeechError` restart timer fires; `success` = `recognition.start()` did not throw -/
  | fireRetryRestart (success : Bool)
  /-- an `onend` restart timer fires -/
  | fireEndRestart (success : Bool)
  /-- the 2000ms fallback timer of `handleSpeechError` fires -/
  | fireFallback
  /-- the reset button: `resetMirror()` -/
  | reset
  deriving Repr, DecidableEq

/-- One step of the session: dispatch an event to the function modelling
its handler. -/
def step : Event → MirrorState → MirrorState × List Scheduled
  | Event.claim, s => processHumanClaim s
  | Event.speechError e, s => handleSpeechError e s
  | Event.recognitionStarted, s => ({ s with status := "Listening..." }, [])
  | Event.recognitionEnded, s =>
      if s.isListening then (s, [Scheduled.restartRecognition 500]) else (s, [])
  | Event.fireVerdict, s => showVerdict s
  | Event.fireStatusRestore, s => (restoreStatusAfterProcessing s, [])
  | Event.fireRetryRestart ok, s => fireRetryRestart ok s
  | Event.fireEndRestart ok, s => fireEndRestart ok s
  | Event.fireFallback, s => (fallbackToAlternativeMethods s, [])
  | Event.reset, s => (resetMirror s, [])

theorem step_recognitionEnded (s : MirrorState) :
    step Event.recognitionEnded s =
      if s.isListening then (s, [Scheduled.restartRecognition 500]) else (s, []) := rfl

theorem step_fireStatusRestore (s : MirrorState) :
    step Event.fireStatusRestore s = (restoreStatusAfterProcessing s, []) := rfl

theorem step_fireRetryRestart (ok : Bool) (s : MirrorState) :
    step (Event.fireRetryRestart ok) s = fireRetryRestart ok s := rfl

theorem step_fireEndRestart (ok : Bool) (s : MirrorState) :
    step (Event.fireEndRestart ok) s = fireEndRestart ok s := rfl

/-- Run a sequence of events from a state (scheduled actions may fire at
any later point, which the event list itself expresses). -/
def run (s : MirrorState) (evs : List Event) : MirrorState :=
  evs.foldl (fun t ev => (step ev t).1) s

/-- A state is reachable if some initialization outcome followed by some
event sequence produces it. -/
def Reachable (s : MirrorState) : Prop :=
  ∃ (hasRec startSuccess : Bool) (evs : List Event),
    s = run (initSession hasRec startSuccess).1 evs

/-- Iterated claim events: `applyClaims s n` is the state after `n`
`processHumanClaim` calls from `s`. -/
def applyClaims (s : MirrorState) : Nat → MirrorState
  | 0 => s
  | Nat.succ k => (processHumanClaim (applyClaims s k)).1

/-- The clean freshly-initialized session with working recognition. -/
def cleanStart : MirrorState := (initSession true true).1

/-- Iterated `handleSpeechError` over a list of error events. -/
def runErrors (es : List SpeechError) (s : MirrorState) : MirrorState :=
  es.foldl (fun t e => (handleSpeechError e t).1) s

/-! ## Helper lemmas -/

theorem processHumanClaim_fst (s : MirrorState) :
    (processHumanClaim s).1 =
      if s.distortionLevel ≥ maxDistortionLevel then s
      else
        { s with distortionLevel := s.distortionLevel + 1
                 humanityPercentage :=
                   max 0 (100 - (((s.distortionLevel + 1 : Nat)) : Int) * 20)
                 cleanInstructionVisible :=
                   if s.distortionLevel + 1 ≥ maxDistortionLevel then false
                   else s.cleanInstructionVisible
                 status := "Processing..." } := by
  unfold processHumanClaim
  by_cases h1 : s.distortionLevel ≥ maxDistortionLevel
  · simp [h1]
  · by_cases h2 : s.distortionLevel + 1 ≥ maxDistortionLevel
    · simp [h1, h2]
    · simp [h1, h2]

theorem processHumanClaim_distortionLevel (s : MirrorState) :
    (processHumanClaim s).1.distortionLevel =
      if s.distortionLevel ≥ maxDistortionLevel then s.distortionLevel
      else s.distortionLevel + 1 := by
  rw [processHumanClaim_fst]
  split_ifs <;> simp

theorem processHumanClaim_level_mono (s : MirrorState) :
    s.distortionLevel ≤ (processHumanClaim s).1.distortionLevel := by
  rw [processHumanClaim_distortionLevel]
  split_ifs <;> omega

/-- `processHumanClaim` leaves every session-state field other than
`distortionLevel`, `humanityPercentage`, `cleanInstructionVisible` and the
status text unchanged. -/
theorem processHumanClaim_preserves (s : MirrorState) :
    (processHumanClaim s).1.isListening = s.isListening ∧
    (processHumanClaim s).1.fallbackActive = s.fallbackActive ∧
    (processHumanClaim s).1.retryCount = s.retryCount ∧
    (processHumanClaim s).1.hasRecognition = s.hasRecognition ∧
    (processHumanClaim s).1.controlsEnabled = s.controlsEnabled ∧
    (processHumanClaim s).1.verdictVisible = s.verdictVisible := by
  rw [processHumanClaim_fst]
  split_ifs <;> simp

theorem processHumanClaim_humanity_consistent (s : MirrorState)
    (h : s.humanityPercentage = max 0 (100 - 20 * (s.distortionLevel : Int))) :
    (processHumanClaim s).1.humanityPercentage =
      max 0 (100 - 20 * ((processHumanClaim s).1.distortionLevel : Int)) := by
  rw [processHumanClaim_fst]
  split_ifs with h1 h2
  · exact h
  all_goals
    show max 0 (100 - (((s.distortionLevel + 1 : Nat)) : Int) * 20)
       = max 0 (100 - 20 * ((s.distortionLevel + 1 : Nat) : Int))
  all_goals omega

theorem applyClaims_succ (s : MirrorState) (n : Nat) :
    applyClaims s (n + 1) = (processHumanClaim (applyClaims s n)).1 := rfl

theorem applyClaims_distortionLevel (s0 : MirrorState)
    (h0 : s0.distortionLevel = 0) (n : Nat) :
    (applyClaims s0 n).distortionLevel = min n maxDistortionLevel := by
  induction n with
  | zero => simpa [applyClaims] using h0
  | succ k ih =>
      rw [applyClaims_succ, processHumanClaim_distortionLevel, ih]
      unfold maxDistortionLevel
      split_ifs <;> omega

theorem applyClaims_humanity (s0 : MirrorState)
    (h0 : s0.humanityPercentage = max 0 (100 - 20 * (s0.distortionLevel : Int)))
    (n : Nat) :
    (applyClaims s0 n).humanityPercentage =
      max 0 (100 - 20 * ((applyClaims s0 n).distortionLevel : Int)) := by
  induction n with
  | zero => simpa [applyClaims] using h0
  | succ k ih =>
      rw [applyClaims_succ]
      exact processHumanClaim_humanity_consistent _ ih

theorem applyClaims_mono (s0 : MirrorState) (m n : Nat) (hmn : m ≤ n) :
    (applyClaims s0 m).distortionLevel ≤ (applyClaims s0 n).distortionLevel := by
  induction n, hmn using Nat.le_induction with
  | base => exact Nat.le_refl _
  | succ n hmn ih =>
      exact Nat.le_trans ih (by rw [applyClaims_succ]; exact processHumanClaim_level_mono _)

/-! ## Claim theorems -/

/-- C1: for every sequence of claim events applied to a session started in
the clean state (`distortionLevel = 0`, `humanityPercentage = 100`),
`distortionLevel` is non-decreasing, never exceeds `maxDistortionLevel = 5`,
and after every `processHumanClaim` call
`humanityPercentage = max 0 (100 - 20 * distortionLevel)` holds. -/
theorem claimSequence_invariants (s0 : MirrorState)
    (h0 : s0.distortionLevel = 0) (h100 : s0.humanityPercentage = 100)
    (m n : Nat) (hmn : m ≤ n) :
    (applyClaims s0 m).distortionLevel ≤ (applyClaims s0 n).distortionLevel ∧
    (applyClaims s0 n).distortionLevel ≤ maxDistortionLevel ∧
    (applyClaims s0 n).humanityPercentage =
      max 0 (100 - 20 * ((applyClaims s0 n).distortionLevel : Int)) := by
  refine ⟨applyClaims_mono s0 m n hmn, ?_, ?_⟩
  · rw [applyClaims_distortionLevel s0 h0 n]; omega
  · exact applyClaims_humanity s0 (by rw [h0, h100]; decide) n

theorem claimSequence_invariants_witness :
    (cleanStart.distortionLevel = 0 ∧ cleanStart.humanityPercentage = 100 ∧
      (2 : Nat) ≤ 7) ∧
    ((applyClaims cleanStart 2).distortionLevel ≤ (applyClaims cleanStart 7).distortionLevel ∧
     (applyClaims cleanStart 7).distortionLevel ≤ maxDistortionLevel ∧
     (applyClaims cleanStart 7).humanityPercentage =
       max 0 (100 - 20 * ((applyClaims cleanStart 7).distortionLevel : Int))) :=
  ⟨⟨by decide, by decide, by decide⟩,
   claimSequence_invariants cleanStart (by decide) (by decide) 2 7 (by decide)⟩

/-- C2: a claim event delivered when `distortionLevel = maxDistortionLevel`
is a complete no-op: `processHumanClaim` returns the state unchanged (all
fields, in particular `isListening`, `fallbackActive`, `retryCount`) and
schedules nothing, so no second verdict transition is triggered. -/
theorem processHumanClaim_noop_at_ceiling (s : MirrorState)
    (h : s.distortionLevel = maxDistortionLevel) :
    processHumanClaim s = (s, []) := by
  unfold processHumanClaim
  simp [h]

theorem processHumanClaim_noop_at_ceiling_witness :
    (applyClaims cleanStart 5).distortionLevel = maxDistortionLevel ∧
    processHumanClaim (applyClaims cleanStart 5) = (applyClaims cleanStart 5, []) :=
  ⟨by decide, processHumanClaim_noop_at_ceiling (applyClaims cleanStart 5) (by decide)⟩

/-- C3 counterexample: the claim asserts all three utterances match, but
`"i am not human"` does not: no entry of `humanPhrases` is a substring of
it, so `detectHumanPhrase` on the normalized transcript returns `false`. -/
theorem phraseMatch_counterexample :
    ¬ (onresultMatches "I AM HUMAN!" = true ∧
       onresultMatches "well, i am a human being, yes" = true ∧
       onresultMatches "i am not human" = true) := by
  decide

/-- C3 (amended): phrase matching lowercases and trims the utterance and
substring-tests it against the fixed phrase list; the utterances
`"I AM HUMAN!"` and `"well, i am a human being, yes"` match, but
`"i am not human"` does not match. -/
theorem phraseMatch_amended :
    onresultMatches "I AM HUMAN!" = true ∧
    onresultMatches "well, i am a human being, yes" = true ∧
    onresultMatches "i am not human" = false ∧
    onresultMatches "   i Am HuMaN   " = true ∧
    normalizeTranscript "  I AM HUMAN!  " = "i am human!" := by
  decide

/-- C7: the 5 sequential claim events from the clean state drive
`distortionLevel` through 1, 2, 3, 4, 5 in order; each of the first four
shows the transient `Processing...` status and schedules the 1500ms
status restore (which settles back to the listening status), while the
fifth instead schedules `showVerdict` after the fixed 2000ms terminal
delay, and `showVerdict` displays the verdict panel and stops
listening. -/
theorem fiveClaims_scenario :
    (applyClaims cleanStart 1).distortionLevel = 1 ∧
    (applyClaims cleanStart 2).distortionLevel = 2 ∧
    (applyClaims cleanStart 3).distortionLevel = 3 ∧
    (applyClaims cleanStart 4).distortionLevel = 4 ∧
    (applyClaims cleanStart 5).distortionLevel = 5 ∧
    (applyClaims cleanStart 1).status = "Processing..." ∧
    (applyClaims cleanStart 2).status = "Processing..." ∧
    (applyClaims cleanStart 3).status = "Processing..." ∧
    (applyClaims cleanStart 4).status = "Processing..." ∧
    (applyClaims cleanStart 5).status = "Processing..." ∧
    (processHumanClaim cleanStart).2 = [Scheduled.statusRestore 1500] ∧
    (processHumanClaim (applyClaims cleanStart 1)).2 = [Scheduled.statusRestore 1500] ∧
    (processHumanClaim (applyClaims cleanStart 2)).2 = [Scheduled.statusRestore 1500] ∧
    (processHumanClaim (applyClaims cleanStart 3)).2 = [Scheduled.statusRestore 1500] ∧
    (processHumanClaim (applyClaims cleanStart 4)).2 = [Scheduled.verdict 2000] ∧
    (restoreStatusAfterProcessing (applyClaims cleanStart 1)).status = "Listening..." ∧
    (restoreStatusAfterProcessing (applyClaims cleanStart 4)).status = "Listening..." ∧
    (showVerdict (applyClaims cleanStart 5)).1.verdictVisible = true ∧
    (showVerdict (applyClaims cleanStart 5)).1.isListening = false := by
  decide

/-- C8: for every permanent error kind (`audio-capture`, `not-allowed`,
`network`, `service-not-allowed`), `handleSpeechError` leaves `retryCount`
unchanged (whatever its value, so regardless of the retry budget),
surfaces a non-empty user-visible message on the indicator, and schedules
the transition to fallback mode after the fixed 2000ms delay. -/
theorem permanentError_behavior (e : SpeechError) (s : MirrorState)
    (he : isPermanentError e = true) :
    (handleSpeechError e s).1.retryCount = s.retryCount ∧
    (handleSpeechError e s).1.status = "Error: " ++ speechErrorMessage e ∧
    speechErrorMessage e ≠ "" ∧
    (handleSpeechError e s).2 = [Scheduled.fallback 2000] := by
  have hr : shouldRestart e = false := by
    cases e <;> simp_all [isPermanentError, shouldRestart]
  unfold handleSpeechError
  rw [hr]
  refine ⟨rfl, rfl, ?_, rfl⟩
  cases e <;> simp_all [isPermanentError, speechErrorMessage]

theorem permanentError_behavior_witness :
    isPermanentError SpeechError.notAllowed = true ∧
    ((handleSpeechError SpeechError.notAllowed cleanStart).1.retryCount =
        cleanStart.retryCount ∧
     (handleSpeechError SpeechError.notAllowed cleanStart).1.status =
        "Error: " ++ speechErrorMessage SpeechError.notAllowed ∧
     speechErrorMessage SpeechError.notAllowed ≠ "" ∧
     (handleSpeechError SpeechError.notAllowed cleanStart).2 =
        [Scheduled.fallback 2000]) :=
  ⟨by decide, permanentError_behavior SpeechError.notAllowed cleanStart (by decide)⟩

/-- C10: below the ceiling, `processHumanClaim` changes only
`distortionLevel` (incremented by one) and `humanityPercentage` among the
session-state fields: `isListening`, `fallbackActive` and `retryCount`
are unchanged. -/
theorem processHumanClaim_frame (s : MirrorState)
    (h : s.distortionLevel < maxDistortionLevel) :
    (processHumanClaim s).1.isListening = s.isListening ∧
    (processHumanClaim s).1.fallbackActive = s.fallbackActive ∧
    (processHumanClaim s).1.retryCount = s.retryCount ∧
    (processHumanClaim s).1.distortionLevel = s.distortionLevel + 1 := by
  obtain ⟨hl, hf, hr, -, -, -⟩ := processHumanClaim_preserves s
  refine ⟨hl, hf, hr, ?_⟩
  rw [processHumanClaim_distortionLevel]
  split_ifs with h1 <;> omega

theorem processHumanClaim_frame_witness :
    cleanStart.distortionLevel < maxDistortionLevel ∧
    ((processHumanClaim cleanStart).1.isListening = cleanStart.isListening ∧
     (processHumanClaim cleanStart).1.fallbackActive = cleanStart.fallbackActive ∧
     (processHumanClaim cleanStart).1.retryCount = cleanStart.retryCount ∧
     (processHumanClaim cleanStart).1.distortionLevel = cleanStart.distortionLevel + 1) :=
  ⟨by decide, processHumanClaim_frame cleanStart (by decide)⟩

/-! ## Session invariant over reachable states -/

/-- Inductive invariant of the session: the retry counter respects its
budget, and when no recognition object exists the session never listens
and never accumulates retries (only recognition callbacks touch them). -/
def SessionInv (s : MirrorState) : Prop :=
  s.retryCount ≤ maxRetries ∧
  (s.hasRecognition = false → s.isListening = false ∧ s.retryCount = 0)

theorem sessionInv_fallback (s : MirrorState) :
    SessionInv (fallbackToAlternativeMethods s) := by
  constructor
  · exact Nat.zero_le _
  · intro _
    exact ⟨rfl, rfl⟩

theorem sessionInv_handleSpeechError (e : SpeechError) (s : MirrorState)
    (h : SessionInv s) : SessionInv (handleSpeechError e s).1 := by
  obtain ⟨hb, himp⟩ := h
  unfold handleSpeechError
  split_ifs with h1 h2
  · rw [Bool.and_eq_true] at h1
    refine ⟨h2, fun hrec => ?_⟩
    exact absurd h1.2 (by simp [(himp hrec).1])
  · exact sessionInv_fallback _
  · exact ⟨hb, fun hrec => himp hrec⟩

theorem sessionInv_fireRetryRestart (ok : Bool) (s : MirrorState)
    (h : SessionInv s) : SessionInv (fireRetryRestart ok s).1 := by
  unfold fireRetryRestart
  split_ifs with h1 h2
  · exact ⟨h.1, fun hrec => h.2 hrec⟩
  · exact sessionInv_handleSpeechError _ _ h
  · exact h

theorem sessionInv_fireEndRestart (ok : Bool) (s : MirrorState)
    (h : SessionInv s) : SessionInv (fireEndRestart ok s).1 := by
  unfold fireEndRestart
  split_ifs with h1 h2
  · exact h
  · exact sessionInv_handleSpeechError _ _ h
  · exact h

theorem sessionInv_showVerdict (s : MirrorState)
    (h : SessionInv s) : SessionInv (showVerdict s).1 :=
  ⟨h.1, fun hrec => ⟨rfl, (h.2 hrec).2⟩⟩

theorem sessionInv_restoreStatus (s : MirrorState)
    (h : SessionInv s) : SessionInv (restoreStatusAfterProcessing s) := by
  unfold restoreStatusAfterProcessing
  split_ifs <;> exact ⟨h.1, fun hrec => h.2 hrec⟩

theorem sessionInv_resetMirror (s : MirrorState)
    (h : SessionInv s) : SessionInv (resetMirror s) := by
  obtain ⟨hb, himp⟩ := h
  unfold resetMirror
  split_ifs with h1 h2
  · refine ⟨Nat.zero_le _, fun hrec => ?_⟩
    have hx : s.hasRecognition = false := hrec
    rw [hx] at h1
    exact absurd h1 (by simp)
  · exact ⟨hb, fun hrec => himp hrec⟩
  · exact ⟨hb, fun hrec => himp hrec⟩

theorem sessionInv_processHumanClaim (s : MirrorState)
    (h : SessionInv s) : SessionInv (processHumanClaim s).1 := by
  obtain ⟨hl, hf, hr, hrec, -, -⟩ := processHumanClaim_preserves s
  refine ⟨hr ▸ h.1, fun hx => ?_⟩
  rw [hl, hr]
  exact h.2 (hrec ▸ hx)

theorem sessionInv_step (ev : Event) (s : MirrorState)
    (h : SessionInv s) : SessionInv (step ev s).1 := by
  cases ev with
  | claim => exact sessionInv_processHumanClaim s h
  | speechError e => exact sessionInv_handleSpeechError e s h
  | recognitionStarted => exact ⟨h.1, fun hrec => h.2 hrec⟩
  | recognitionEnded =>
      rw [step_recognitionEnded]
      split_ifs <;> exact h
  | fireVerdict => exact sessionInv_showVerdict s h
  | fireStatusRestore => exact sessionInv_restoreStatus s h
  | fireRetryRestart ok => exact sessionInv_fireRetryRestart ok s h
  | fireEndRestart ok => exact sessionInv_fireEndRestart ok s h
  | fireFallback => exact sessionInv_fallback s
  | reset => exact sessionInv_resetMirror s h

theorem sessionInv_run (s : MirrorState) (evs : List Event)
    (h : SessionInv s) : SessionInv (run s evs) := by
  induction evs generalizing s with
  | nil => exact h
  | cons ev evs ih => exact ih _ (sessionInv_step ev s h)

theorem sessionInv_init (hasRec ok : Bool) :
    SessionInv (initSession hasRec ok).1 := by
  unfold initSession
  split_ifs with h1 h2
  · exact ⟨Nat.zero_le _, fun hrec => by simp [initState] at hrec⟩
  · refine sessionInv_handleSpeechError _ _ ⟨Nat.zero_le _, fun hrec => ?_⟩
    simp [initState] at hrec
  · exact sessionInv_fallback _

theorem reachable_sessionInv (s : MirrorState) (h : Reachable s) :
    SessionInv s := by
  obtain ⟨hasRec, ok, evs, rfl⟩ := h
  exact sessionInv_run _ evs (sessionInv_init hasRec ok)

theorem resetMirror_retryCount (s : MirrorState) (h : SessionInv s) :
    (resetMirror s).retryCount = 0 := by
  unfold resetMirror
  split_ifs with h1 h2
  · rfl
  · exact (h.2 (by simpa using h1)).2
  · exact (h.2 (by simpa using h1)).2

/-- C5: from every reachable session state, `resetMirror` establishes
`distortionLevel = 0`, `humanityPercentage = 100`, the verdict panel
hidden, and `retryCount = 0` (the last via the reachable-state invariant:
when no recognition object exists — the only case where `resetMirror`
skips the `retryCount = 0` assignment — the counter is already 0). -/
theorem resetMirror_postcondition (s : MirrorState) (hs : Reachable s) :
    (resetMirror s).distortionLevel = 0 ∧
    (resetMirror s).humanityPercentage = 100 ∧
    (resetMirror s).verdictVisible = false ∧
    (resetMirror s).retryCount = 0 := by
  refine ⟨?_, ?_, ?_, resetMirror_retryCount s (reachable_sessionInv s hs)⟩ <;>
  · unfold resetMirror
    split_ifs <;> rfl

theorem resetMirror_postcondition_witness :
    Reachable cleanStart ∧
    ((resetMirror cleanStart).distortionLevel = 0 ∧
     (resetMirror cleanStart).humanityPercentage = 100 ∧
     (resetMirror cleanStart).verdictVisible = false ∧
     (resetMirror cleanStart).retryCount = 0) :=
  ⟨⟨true, true, [], rfl⟩, resetMirror_postcondition cleanStart ⟨true, true, [], rfl⟩⟩

/-- C6 counterexample: a reachable state (clean session after one
`no-speech` error) has `retryCount = 1`, and the successful-restart event
(the retry timer firing with `recognition.start()` succeeding) leaves it
at 1 rather than resetting it to 0: the code has no
reset-on-successful-start assignment. -/
theorem retryCount_restart_counterexample :
    Reachable (run cleanStart [Event.speechError SpeechError.noSpeech]) ∧
    (run cleanStart [Event.speechError SpeechError.noSpeech]).retryCount = 1 ∧
    (fireRetryRestart true
        (run cleanStart [Event.speechError SpeechError.noSpeech])).1.retryCount = 1 ∧
    (fireRetryRestart true
        (run cleanStart [Event.speechError SpeechError.noSpeech])).1.retryCount ≠ 0 :=
  ⟨⟨true, true, [Event.speechError SpeechError.noSpeech], rfl⟩,
   by decide, by decide, by decide⟩

theorem fireRetryRestart_success_retryCount (s : MirrorState) :
    (fireRetryRestart true s).1.retryCount = s.retryCount := by
  unfold fireRetryRestart
  split_ifs with h1 h2
  · rfl
  · exact absurd rfl h2
  · rfl

/-- C6 (amended): in every reachable state `retryCount` is an integer in
`[0, maxRetries]`, and `retryCount` is reset to 0 on fallback entry and on
mirror reset; a successful restart of recognition, however, leaves
`retryCount` unchanged (the code never resets it there). -/
theorem retryCount_bounds_and_resets (s : MirrorState) (hs : Reachable s) :
    s.retryCount ≤ maxRetries ∧
    (fallbackToAlternativeMethods s).retryCount = 0 ∧
    (resetMirror s).retryCount = 0 ∧
    (fireRetryRestart true s).1.retryCount = s.retryCount := by
  have hinv := reachable_sessionInv s hs
  exact ⟨hinv.1, rfl, resetMirror_retryCount s hinv,
    fireRetryRestart_success_retryCount s⟩

theorem retryCount_bounds_and_resets_witness :
    Reachable cleanStart ∧
    (cleanStart.retryCount ≤ maxRetries ∧
     (fallbackToAlternativeMethods cleanStart).retryCount = 0 ∧
     (resetMirror cleanStart).retryCount = 0 ∧
     (fireRetryRestart true cleanStart).1.retryCount = cleanStart.retryCount) :=
  ⟨⟨true, true, [], rfl⟩, retryCount_bounds_and_resets cleanStart ⟨true, true, [], rfl⟩⟩

/-- C4 counterexample: from the clean listening state (`retryCount = 0`,
`isListening = true`), exactly `maxRetries = 5` consecutive transient
errors do not enter fallback mode: the code retries while
`retryCount <= maxRetries`, so after 5 errors `retryCount = 5` and
`fallbackActive` is still false — a 6th error is needed. -/
theorem fallback_after_five_errors_counterexample :
    cleanStart.retryCount = 0 ∧ cleanStart.isListening = true ∧
    (runErrors (List.replicate 5 SpeechError.noSpeech) cleanStart).fallbackActive = false ∧
    (runErrors (List.replicate 5 SpeechError.noSpeech) cleanStart).isListening = true ∧
    (runErrors (List.replicate 5 SpeechError.noSpeech) cleanStart).retryCount = 5 := by
  decide

theorem transient_errors_exhaust (es : List SpeechError) (s : MirrorState)
    (hl : s.isListening = true) (hb : s.retryCount ≤ maxRetries)
    (ht : ∀ e ∈ es, shouldRestart e = true)
    (hc : s.retryCount + es.length = maxRetries + 1) :
    runErrors es s = fallbackToAlternativeMethods s := by
  induction es generalizing s with
  | nil =>
      simp only [List.length_nil] at hc
      omega
  | cons e rest ih =>
      have he : shouldRestart e = true := ht e (List.mem_cons_self e rest)
      have hstep : runErrors (e :: rest) s = runErrors rest (handleSpeechError e s).1 := rfl
      rw [hstep]
      simp only [List.length_cons] at hc
      by_cases hfit : s.retryCount + 1 ≤ maxRetries
      · have h1 : (handleSpeechError e s).1 =
            { s with retryCount := s.retryCount + 1
                     status := restartingStatus (s.retryCount + 1) } := by
          unfold handleSpeechError
          simp [he, hl, hfit]
        rw [h1]
        rw [ih { s with retryCount := s.retryCount + 1
                        status := restartingStatus (s.retryCount + 1) }
              hl hfit (fun e' he' => ht e' (List.mem_cons_of_mem e he'))
              (by simpa using by omega)]
        rfl
      · have hrest : rest = [] := by
          have : rest.length = 0 := by omega
          exact List.length_eq_zero.mp this
        subst hrest
        have h1 : (handleSpeechError e s).1 =
            fallbackToAlternativeMethods { s with retryCount := s.retryCount + 1 } := by
          unfold handleSpeechError
          simp [he, hl, hfit]
        rw [show runErrors [] (handleSpeechError e s).1 = (handleSpeechError e s).1 from rfl,
            h1]
        rfl

/-- C4 (amended): starting from `retryCount = 0` with `isListening` true,
after exactly `maxRetries + 1 = 6` consecutive transient recognition
errors (any mix of no-speech, aborted, or unknown kinds) with no
intervening successful start, the system enters fallback mode
(`fallbackActive` true, `isListening` false, `retryCount` back to 0), and
from then on every manual trigger input (designated key, mirror click,
test button) produces a claim event (`processHumanClaim`).  Exactly
`maxRetries` errors are not enough (see the counterexample): the code
retries while `retryCount <= maxRetries` after incrementing. -/
theorem fallback_after_six_transient_errors (s : MirrorState)
    (hl : s.isListening = true) (hr : s.retryCount = 0)
    (es : List SpeechError) (hlen : es.length = maxRetries + 1)
    (ht : ∀ e ∈ es, shouldRestart e = true) :
    (runErrors es s).fallbackActive = true ∧
    (runErrors es s).isListening = false ∧
    (runErrors es s).retryCount = 0 ∧
    (runErrors es s).controlsEnabled = true ∧
    manualTrigger (runErrors es s) = processHumanClaim (runErrors es s) := by
  have hx := transient_errors_exhaust es s hl (by omega) ht (by omega)
  rw [hx]
  refine ⟨rfl, rfl, rfl, rfl, ?_⟩
  unfold manualTrigger
  rw [if_pos]
  rfl

theorem fallback_after_six_transient_errors_witness :
    (cleanStart.isListening = true ∧ cleanStart.retryCount = 0 ∧
     (List.replicate 6 SpeechError.noSpeech).length = maxRetries + 1) ∧
    ((runErrors (List.replicate 6 SpeechError.noSpeech) cleanStart).fallbackActive = true ∧
     (runErrors (List.replicate 6 SpeechError.noSpeech) cleanStart).isListening = false ∧
     (runErrors (List.replicate 6 SpeechError.noSpeech) cleanStart).retryCount = 0 ∧
     (runErrors (List.replicate 6 SpeechError.noSpeech) cleanStart).controlsEnabled = true ∧
     manualTrigger (runErrors (List.replicate 6 SpeechError.noSpeech) cleanStart) =
       processHumanClaim (runErrors (List.replicate 6 SpeechError.noSpeech) cleanStart)) :=
  ⟨⟨by decide, by decide, by decide⟩,
   fallback_after_six_transient_errors cleanStart (by decide) (by decide)
     (List.replicate 6 SpeechError.noSpeech) (by decide)
     (fun e he => by rw [List.eq_of_mem_replicate he]; decide)⟩

theorem handleSpeechError_fallbackActive (e : SpeechError) (s : MirrorState) :
    (handleSpeechError e s).1.fallbackActive = s.fallbackActive ∨
    (handleSpeechError e s).1.fallbackActive = true := by
  unfold handleSpeechError fallbackToAlternativeMethods
  split_ifs <;> simp

/-- C9: `fallbackActive`, once true, is never set back to false by any
operation of the system: every event either preserves `fallbackActive` or
sets it to true (`fallbackToAlternativeMethods` is the only assignment and
only assigns true), so it is monotone along every step; in particular
`resetMirror` leaves `fallbackActive` exactly as it was. -/
theorem fallbackActive_monotone (s : MirrorState) (ev : Event) :
    ((step ev s).1.fallbackActive = s.fallbackActive ∨
     (step ev s).1.fallbackActive = true) ∧
    (s.fallbackActive = true → (step ev s).1.fallbackActive = true) ∧
    (resetMirror s).fallbackActive = s.fallbackActive := by
  have hreset : (resetMirror s).fallbackActive = s.fallbackActive := by
    unfold resetMirror
    split_ifs <;> rfl
  have hcases : (step ev s).1.fallbackActive = s.fallbackActive ∨
      (step ev s).1.fallbackActive = true := by
    cases ev with
    | claim => exact Or.inl (processHumanClaim_preserves s).2.1
    | speechError e => exact handleSpeechError_fallbackActive e s
    | recognitionStarted => exact Or.inl rfl
    | recognitionEnded =>
        rw [step_recognitionEnded]
        split_ifs <;> exact Or.inl rfl
    | fireVerdict => exact Or.inl rfl
    | fireStatusRestore =>
        rw [step_fireStatusRestore]
        unfold restoreStatusAfterProcessing
        split_ifs <;> exact Or.inl rfl
    | fireRetryRestart ok =>
        rw [step_fireRetryRestart]
        unfold fireRetryRestart
        split_ifs
        · exact Or.inl rfl
        · exact handleSpeechError_fallbackActive _ s
        · exact Or.inl rfl
    | fireEndRestart ok =>
        rw [step_fireEndRestart]
        unfold fireEndRestart
        split_ifs
        · exact Or.inl rfl
        · exact handleSpeechError_fallbackActive _ s
        · exact Or.inl rfl
    | fireFallback => exact Or.inr rfl
    | reset => exact Or.inl hreset
  refine ⟨hcases, fun hf => ?_, hreset⟩
  rcases hcases with h | h
  · rw [h, hf]
  · exact h

theorem fallbackActive_monotone_witness :
    (run cleanStart [Event.fireFallback]).fallbackActive = true ∧
    (step Event.reset (run cleanStart [Event.fireFallback])).1.fallbackActive = true :=
  ⟨by decide,
   (fallbackActive_monotone (run cleanStart [Event.fireFallback]) Event.reset).2.1
     (by decide)⟩

end DigitalMirror
